import Mathlib

/-!
Shallow embedding of the book-management surface of the repository
(`src/routes/book.route.js` and `src/models/book.model.js`).

The store (a MongoDB collection accessed through Mongoose) is modelled as a
list of book documents in natural (insertion) order together with a counter
used to generate fresh identifiers.  JavaScript strings that may be absent
from a request body or query string are `Option String`; JavaScript
truthiness on such a value (`!title`, `if (id)`, `else if (query)`) is the
`truthy` test below (absent and the empty string are falsy).  The `page`
query parameter is modelled after its implicit numeric coercion in
`(page - 1) * perPage`: `some n` for a numeric value, `none` for NaN
(absent or non-numeric); MongoDB rejects a NaN or negative skip, which the
handler's catch turns into a status-400 response.  Dates are kept as the
strings the client sent (the Mongoose `Date` cast is not modelled; no claim
depends on it).
-/

namespace BookService

/-- A persisted book document (`bookSchema` in `src/models/book.model.js`):
`title`, `author`, `isbn`, `description`, `publishedDate`, all required,
plus the store-generated identifier `_id`. -/
structure Book where
  id : String
  title : String
  author : String
  isbn : String
  description : String
  publishedDate : String
deriving Repr, DecidableEq

/-- The book collection: documents in natural (insertion) order, plus a
counter from which fresh identifiers are generated. -/
structure Store where
  books : List Book
  nextId : Nat
deriving Repr, DecidableEq

/-- JavaScript truthiness of a possibly-absent string: `undefined` and the
empty string are falsy. -/
def truthy : Option String → Bool
  | none => false
  | some s => !s.isEmpty

/-- A hexadecimal digit. -/
def isHexChar (c : Char) : Bool :=
  c.isDigit || ('a' ≤ c && c ≤ 'f') || ('A' ≤ c && c ≤ 'F')

/-- Mongoose accepts as an ObjectId a 24-character hex string (or any
12-character string, taken as 12 raw bytes).  Everything else throws a
`CastError` when used in `findById` / `findByIdAndUpdate` /
`findByIdAndDelete`. -/
def isValidObjectId (s : String) : Bool :=
  (s.length == 24 && s.data.all isHexChar) || s.length == 12

/-- Identifier generation on insert: the counter rendered as a 24-character
hex string (MongoDB ObjectIds are 24 hex characters). -/
def genId (n : Nat) : String :=
  let ds := Nat.toDigits 16 n
  ⟨List.replicate (24 - ds.length) '0' ++ ds⟩

/-- Response bodies produced by the handlers, as the shapes of the JSON
objects they serialize. -/
inductive ResBody where
  /-- `{ message }` -/
  | msg (message : String)
  /-- `{ message, error }` (the catch-all error responses) -/
  | msgErr (message error : String)
  /-- a single book object (GET id mode) -/
  | book (b : Book)
  /-- an array of books (GET query/page modes) -/
  | books (bs : List Book)
  /-- `{ message, book }` where `book` may be `null` -/
  | msgBook (message : String) (book : Option Book)
deriving Repr, DecidableEq

/-- An HTTP response: status code and JSON body. -/
structure Response where
  status : Nat
  body : ResBody
deriving Repr, DecidableEq

/-! ### Create (`POST /books`) -/

/-- The JSON body of a create request; each field may be absent. -/
structure CreateBody where
  title : Option String
  author : Option String
  isbn : Option String
  description : Option String
  publishedDate : Option String
deriving Repr, DecidableEq

/-- The route-level required-field validation of the POST handler:
`if (!title || !author || !isbn || !publishedDate)` — note that
`description` is not checked here. -/
def createValid (b : CreateBody) : Bool :=
  truthy b.title && truthy b.author && truthy b.isbn && truthy b.publishedDate

/-- `POST /books`: validate the four checked fields, then `newBook.save()`.
The save runs the schema validation, where `description` IS required (and,
for strings, required means non-empty), so a missing/empty description
fails at save time with a Mongoose validation error whose `message` is
returned with status 400 by the catch.  On success the new document, with
its generated identifier, is appended to the collection and returned with
status 201. -/
def createBook (st : Store) (b : CreateBody) : Response × Store :=
  if !createValid b then
    (⟨400, .msg "All fields are required"⟩, st)
  else if !truthy b.description then
    (⟨400, .msg "Book validation failed: description: Path required"⟩, st)
  else
    let nb : Book :=
      ⟨genId st.nextId, b.title.getD "", b.author.getD "", b.isbn.getD "",
        b.description.getD "", b.publishedDate.getD ""⟩
    (⟨201, .msgBook "Book created" (some nb)⟩,
      ⟨st.books ++ [nb], st.nextId + 1⟩)

/-! ### Read (`GET /books`): id / query / page modes

The query-mode search builds `new RegExp(query, "i")` and matches it,
unanchored, against `title` and `author`.  The regex dialect is embedded
for the fragment exercised here: `.` matches any single character and every
other character matches itself case-insensitively.  Patterns that use other
JavaScript regex metacharacters are outside this fragment, and the search
theorems restrict their pattern to characters on which the fragment agrees
with JavaScript. -/

/-- Case-insensitive character equality (the `i` flag). -/
def charEqI (a b : Char) : Bool := a.toLower == b.toLower

/-- One pattern character against one subject character: `.` matches
anything, other characters match case-insensitively. -/
def regexCharMatch (p c : Char) : Bool := p == '.' || charEqI p c

/-- Does the pattern match a prefix of the subject, character-matching with
`pm`? -/
def matchesPrefix (pm : Char → Char → Bool) : List Char → List Char → Bool
  | [], _ => true
  | _ :: _, [] => false
  | p :: ps, c :: cs => pm p c && matchesPrefix pm ps cs

/-- Unanchored search: does the pattern match at some position of the
subject? -/
def searchFrom (pm : Char → Char → Bool) (pat : List Char) : List Char → Bool
  | [] => matchesPrefix pm pat []
  | c :: cs => matchesPrefix pm pat (c :: cs) || searchFrom pm pat cs

/-- `new RegExp(pat, "i").test(s)` for the embedded fragment. -/
def regexTestI (pat s : String) : Bool :=
  searchFrom regexCharMatch pat.data s.data

/-- The characters JavaScript regular expressions treat specially. -/
def isRegexMeta (c : Char) : Bool :=
  c == '.' || c == '*' || c == '+' || c == '?' || c == '^' || c == '$' ||
  c == '(' || c == ')' || c == '[' || c == ']' || c == '\x7b' ||
  c == '\x7d' || c == '|' || c == '\\'

/-- "q occurs in s as a case-insensitive substring" — the spec's notion of
a search hit, stated independently of the code's regex machinery. -/
def ciContains (q s : String) : Prop :=
  (q.data.map Char.toLower) <:+: (s.data.map Char.toLower)

instance (q s : String) : Decidable (ciContains q s) := by
  unfold ciContains; infer_instance

/-- The query parameters of `GET /books`; `page` is the value after
JavaScript numeric coercion (`none` = NaN). -/
structure GetParams where
  page : Option Int
  query : Option String
  id : Option String
deriving Repr, DecidableEq

/-- Id mode: `BookModel.findById(id)` — a `CastError` on a malformed
identifier reaches the catch (status 400, `"Internal server error"`); an
identifier not in the collection yields the explicit 400
`"Book Not Found"`; otherwise the document is returned with 200. -/
def idModeResult (st : Store) (s : String) : Response :=
  if isValidObjectId s then
    match st.books.find? (fun b => b.id == s) with
    | some b => ⟨200, .book b⟩
    | none => ⟨400, .msg "Book Not Found"⟩
  else ⟨400, .msgErr "Internal server error" "Cast to ObjectId failed"⟩

/-- Query mode: `find({ $or: [{title: searchRegex}, {author: searchRegex}] })`
— every document whose title or author the regex matches, in natural order,
with no pagination. -/
def queryModeResult (st : Store) (q : String) : Response :=
  ⟨200, .books (st.books.filter (fun b => regexTestI q b.title || regexTestI q b.author))⟩

/-- Page mode: `find().skip((page - 1) * 4).limit(4)`.  A NaN or negative
skip is rejected by MongoDB and surfaces through the catch as status 400. -/
def pageModeResult (st : Store) (page : Option Int) : Response :=
  match page.map (fun n => (n - 1) * 4) with
  | some skip =>
      if 0 ≤ skip then ⟨200, .books ((st.books.drop skip.toNat).take 4)⟩
      else ⟨400, .msgErr "Internal server error" "Skip value must be non-negative"⟩
  | none => ⟨400, .msgErr "Internal server error" "Skip value must be numeric"⟩

/-- `GET /books`: mode selection in priority order `id` > `query` > `page`
(`if (id) ... else if (query) ... else ...`); a read-only request, so the
store is returned unchanged on every path. -/
def getBooks (st : Store) (p : GetParams) : Response × Store :=
  if truthy p.id then (idModeResult st (p.id.getD ""), st)
  else if truthy p.query then (queryModeResult st (p.query.getD ""), st)
  else (pageModeResult st p.page, st)

/-! ### Update (`PUT /books/:id`) and Delete (`DELETE /books/:id`) -/

/-- The JSON body of an update request: any subset of the book fields. -/
structure UpdateBody where
  title : Option String
  author : Option String
  isbn : Option String
  description : Option String
  publishedDate : Option String
deriving Repr, DecidableEq

/-- `findByIdAndUpdate` treats the body as a `$set`: each provided field
overwrites the stored one, absent fields are untouched, and no
required-field validation is re-run. -/
def applyUpdate (b : Book) (u : UpdateBody) : Book :=
  { b with
    title := u.title.getD b.title
    author := u.author.getD b.author
    isbn := u.isbn.getD b.isbn
    description := u.description.getD b.description
    publishedDate := u.publishedDate.getD b.publishedDate }

/-- `PUT /books/:id`: `findByIdAndUpdate(id, body, { new: true })`.  A
malformed identifier throws a `CastError` caught as status 400; an
identifier with no document returns `null` and is still reported with
status 200 `"Book updated"`; otherwise the document is overwritten and the
post-update document returned. -/
def updateBook (st : Store) (idStr : String) (u : UpdateBody) : Response × Store :=
  if isValidObjectId idStr then
    match st.books.find? (fun b => b.id == idStr) with
    | none => (⟨200, .msgBook "Book updated" none⟩, st)
    | some b =>
        let b' := applyUpdate b u
        (⟨200, .msgBook "Book updated" (some b')⟩,
          ⟨st.books.map (fun x => if x.id == idStr then b' else x), st.nextId⟩)
  else (⟨400, .msgErr "Internal server error" "Cast to ObjectId failed"⟩, st)

/-- `DELETE /books/:id`: `findByIdAndDelete(id)`.  A malformed identifier
throws a `CastError` caught as status 400; otherwise the document with that
identifier (identifiers are unique keys) is removed — if none exists,
nothing changes — and the removed document, possibly `null`, is reported
with status 200 `"Book deleted"`. -/
def deleteBook (st : Store) (idStr : String) : Response × Store :=
  if isValidObjectId idStr then
    (⟨200, .msgBook "Book deleted" (st.books.find? (fun b => b.id == idStr))⟩,
      ⟨st.books.filter (fun b => !(b.id == idStr)), st.nextId⟩)
  else (⟨400, .msgErr "Internal server error" "Cast to ObjectId failed"⟩, st)

/-! ### Support lemmas -/

theorem truthy_none : truthy none = false := rfl

theorem truthy_some {s : String} (hs : s ≠ "") : truthy (some s) = true := by
  have h : s.isEmpty = false := by
    rcases Bool.eq_false_or_eq_true s.isEmpty with h | h
    · exact absurd ((String.isEmpty_iff s).mp h) hs
    · exact h
  simp [truthy, h]

theorem matchesPrefix_charEqI (pat s : List Char) :
    matchesPrefix charEqI pat s = true ↔
      pat.map Char.toLower <+: s.map Char.toLower := by
  induction pat generalizing s with
  | nil => simp [matchesPrefix, List.nil_prefix]
  | cons p ps ih =>
    cases s with
    | nil => simp [matchesPrefix]
    | cons c cs =>
      simp [matchesPrefix, charEqI, List.cons_prefix_cons, ih, Bool.and_eq_true]

theorem searchFrom_charEqI (pat s : List Char) :
    searchFrom charEqI pat s = true ↔
      pat.map Char.toLower <:+: s.map Char.toLower := by
  induction s with
  | nil =>
    simp [searchFrom, matchesPrefix_charEqI, List.infix_nil, List.prefix_nil]
  | cons c cs ih =>
    simp [searchFrom, matchesPrefix_charEqI, ih, List.infix_cons_iff,
      Bool.or_eq_true]

theorem regexCharMatch_of_not_meta {p : Char} (hp : isRegexMeta p = false)
    (c : Char) : regexCharMatch p c = charEqI p c := by
  have hdot : (p == '.') = false := by
    unfold isRegexMeta at hp
    simp only [Bool.or_eq_false_iff] at hp
    exact hp.1.1.1.1.1.1.1.1.1.1.1.1.1
  simp [regexCharMatch, hdot]

theorem matchesPrefix_of_not_meta {pat : List Char}
    (hp : ∀ p ∈ pat, isRegexMeta p = false) (s : List Char) :
    matchesPrefix regexCharMatch pat s = matchesPrefix charEqI pat s := by
  induction pat generalizing s with
  | nil => simp [matchesPrefix]
  | cons p ps ih =>
    cases s with
    | nil => simp [matchesPrefix]
    | cons c cs =>
      have h1 := hp p (List.mem_cons_self _ _)
      have h2 : ∀ x ∈ ps, isRegexMeta x = false := fun x hx =>
        hp x (List.mem_cons_of_mem _ hx)
      simp [matchesPrefix, regexCharMatch_of_not_meta h1, ih h2]

theorem searchFrom_of_not_meta {pat : List Char}
    (hp : ∀ p ∈ pat, isRegexMeta p = false) (s : List Char) :
    searchFrom regexCharMatch pat s = searchFrom charEqI pat s := by
  induction s with
  | nil => simp [searchFrom, matchesPrefix_of_not_meta hp]
  | cons c cs ih => simp [searchFrom, matchesPrefix_of_not_meta hp, ih]

/-- For a pattern free of JavaScript regex metacharacters, the regex test
performed by the search is exactly the case-insensitive substring test. -/
theorem regexTestI_iff_ciContains (q s : String)
    (hq : ∀ c ∈ q.data, isRegexMeta c = false) :
    regexTestI q s = true ↔ ciContains q s := by
  unfold regexTestI ciContains
  rw [searchFrom_of_not_meta hq, searchFrom_charEqI]

/-! ### The claims -/

/-- C1: a Create request with `title`, `author`, `isbn` or `publishedDate`
absent or empty returns status 400 with message "All fields are required"
and leaves the store unchanged; `description` is not part of this
validation, so when the four checked fields are fine the request never
produces that response, whatever `description` is. -/
theorem create_requires_four_fields (st : Store) (b : CreateBody) :
    (createValid b = false →
      createBook st b = (⟨400, .msg "All fields are required"⟩, st)) ∧
    (createValid b = true →
      (createBook st b).1.body ≠ .msg "All fields are required") := by
  constructor
  · intro h
    simp [createBook, h]
  · intro h
    by_cases hd : truthy b.description = true <;> simp [createBook, h, hd]

theorem create_requires_four_fields_witness :
    createBook ⟨[], 0⟩ ⟨none, some "a", some "i", some "d", some "2023-01-01"⟩ =
      (⟨400, .msg "All fields are required"⟩, ⟨[], 0⟩) ∧
    (createBook ⟨[], 0⟩
        ⟨some "t", some "a", some "i", none, some "2023-01-01"⟩).1.body ≠
      .msg "All fields are required" :=
  ⟨(create_requires_four_fields ⟨[], 0⟩
      ⟨none, some "a", some "i", some "d", some "2023-01-01"⟩).1 (by decide),
    (create_requires_four_fields ⟨[], 0⟩
      ⟨some "t", some "a", some "i", none, some "2023-01-01"⟩).2 (by decide)⟩

/-- C7: a Create request with all five fields present and non-empty (so
persistence succeeds) returns status 201, message "Book created", and a
record carrying the input fields and the store-generated identifier; the
record is appended to the store. -/
theorem create_success (st : Store) (t a i d pd : String)
    (ht : t ≠ "") (ha : a ≠ "") (hi : i ≠ "") (hd : d ≠ "") (hp : pd ≠ "") :
    createBook st ⟨some t, some a, some i, some d, some pd⟩ =
      (⟨201, .msgBook "Book created" (some ⟨genId st.nextId, t, a, i, d, pd⟩)⟩,
        ⟨st.books ++ [⟨genId st.nextId, t, a, i, d, pd⟩], st.nextId + 1⟩) := by
  have hv : createValid ⟨some t, some a, some i, some d, some pd⟩ = true := by
    simp [createValid, truthy_some ht, truthy_some ha, truthy_some hi,
      truthy_some hp]
  simp [createBook, hv, truthy_some hd]

theorem create_success_witness :
    createBook ⟨[], 7⟩
        ⟨some "T", some "A", some "I", some "D", some "2023-01-01"⟩ =
      (⟨201, .msgBook "Book created"
          (some ⟨genId 7, "T", "A", "I", "D", "2023-01-01"⟩)⟩,
        ⟨[⟨genId 7, "T", "A", "I", "D", "2023-01-01"⟩], 8⟩) :=
  create_success ⟨[], 7⟩ "T" "A" "I" "D" "2023-01-01"
    (by decide) (by decide) (by decide) (by decide) (by decide)

/-- C4: `GET /books` selects exactly one mode, in priority order
`id` > `query` > `page`: with a truthy `id` the result is the id-mode
result whatever `page` and `query` are; with no truthy `id` and a truthy
`query` the result is the query-mode result whatever `page` is; otherwise
the page mode runs. -/
theorem getBooks_mode_priority (st : Store) (p : GetParams) :
    (truthy p.id = true → ∀ pg q,
      getBooks st ⟨pg, q, p.id⟩ = (idModeResult st (p.id.getD ""), st)) ∧
    (truthy p.id = false → truthy p.query = true → ∀ pg,
      getBooks st ⟨pg, p.query, p.id⟩ =
        (queryModeResult st (p.query.getD ""), st)) ∧
    (truthy p.id = false → truthy p.query = false →
      getBooks st p = (pageModeResult st p.page, st)) := by
  refine ⟨fun h pg q => ?_, fun h1 h2 pg => ?_, fun h1 h2 => ?_⟩ <;>
    simp [getBooks, *]

theorem getBooks_mode_priority_witness :
    (getBooks ⟨[], 0⟩ ⟨some 1, some "q", some "aaaaaaaaaaaaaaaaaaaaaaaa"⟩ =
      (idModeResult ⟨[], 0⟩ "aaaaaaaaaaaaaaaaaaaaaaaa", ⟨[], 0⟩)) ∧
    (getBooks ⟨[], 0⟩ ⟨some 1, some "q", none⟩ =
      (queryModeResult ⟨[], 0⟩ "q", ⟨[], 0⟩)) ∧
    (getBooks ⟨[], 0⟩ ⟨some 1, none, none⟩ =
      (pageModeResult ⟨[], 0⟩ (some 1), ⟨[], 0⟩)) :=
  ⟨(getBooks_mode_priority ⟨[], 0⟩
      ⟨some 1, some "q", some "aaaaaaaaaaaaaaaaaaaaaaaa"⟩).1 (by decide)
      (some 1) (some "q"),
    (getBooks_mode_priority ⟨[], 0⟩ ⟨some 1, some "q", none⟩).2.1
      (by decide) (by decide) (some 1),
    (getBooks_mode_priority ⟨[], 0⟩ ⟨some 1, none, none⟩).2.2
      (by decide) (by decide)⟩

/-- C10: `GET /books` is read-only — in every mode and on every outcome the
store is returned unchanged. -/
theorem getBooks_leaves_store_unchanged (st : Store) (p : GetParams) :
    (getBooks st p).2 = st := by
  unfold getBooks
  split
  · rfl
  · split <;> rfl

/-- C2, counterexample: the search is a regex match, not a literal
substring match.  With a single book titled "abc" (author "xyz"), the query
"a.c" — where `.` is a regex wildcard — returns that book, although "a.c"
is not a case-insensitive substring of "abc" or of "xyz". -/
theorem getBooks_query_regex_cex :
    (getBooks
        ⟨[⟨"aaaaaaaaaaaaaaaaaaaaaaaa", "abc", "xyz", "isbn1", "desc",
            "2020-01-01"⟩], 1⟩
        ⟨none, some "a.c", none⟩).1 =
      ⟨200, .books [⟨"aaaaaaaaaaaaaaaaaaaaaaaa", "abc", "xyz", "isbn1",
          "desc", "2020-01-01"⟩]⟩ ∧
    ¬ ciContains "a.c" "abc" ∧ ¬ ciContains "a.c" "xyz" :=
  ⟨by decide, by decide, by decide⟩

/-- C2, amended: for every search string q built only from characters that
are not JavaScript regex metacharacters, query mode returns, without
pagination, exactly the records whose title or author contains q as a
case-insensitive substring.  (For q containing metacharacters the match is
the case-insensitive regex match of q, not a substring match.) -/
theorem getBooks_query_mode_substring (st : Store) (pg : Option Int)
    (q : String) (hq : q ≠ "")
    (hmeta : ∀ c ∈ q.data, isRegexMeta c = false) :
    ∃ l, getBooks st ⟨pg, some q, none⟩ = (⟨200, .books l⟩, st) ∧
      ∀ b, b ∈ l ↔
        b ∈ st.books ∧ (ciContains q b.title ∨ ciContains q b.author) := by
  refine ⟨st.books.filter
    (fun b => regexTestI q b.title || regexTestI q b.author), ?_, ?_⟩
  · simp [getBooks, truthy_none, truthy_some hq, queryModeResult]
  · intro b
    rw [List.mem_filter]
    simp [Bool.or_eq_true, regexTestI_iff_ciContains _ _ hmeta]

theorem getBooks_query_mode_substring_witness :
    ∃ l, getBooks
        ⟨[⟨"aaaaaaaaaaaaaaaaaaaaaaaa", "The-Hobbit", "Tolkien", "isbn1",
            "desc", "1937-09-21"⟩], 1⟩
        ⟨none, some "hobbit", none⟩ =
      (⟨200, .books l⟩,
        ⟨[⟨"aaaaaaaaaaaaaaaaaaaaaaaa", "The-Hobbit", "Tolkien", "isbn1",
            "desc", "1937-09-21"⟩], 1⟩) ∧
      ∀ b, b ∈ l ↔
        b ∈ [⟨"aaaaaaaaaaaaaaaaaaaaaaaa", "The-Hobbit", "Tolkien", "isbn1",
            "desc", "1937-09-21"⟩] ∧
          (ciContains "hobbit" b.title ∨ ciContains "hobbit" b.author) :=
  getBooks_query_mode_substring
    ⟨[⟨"aaaaaaaaaaaaaaaaaaaaaaaa", "The-Hobbit", "Tolkien", "isbn1",
        "desc", "1937-09-21"⟩], 1⟩
    none "hobbit" (by decide) (by decide)

/-- A concrete store content with k books, used to exercise pagination. -/
def pmB (k : Nat) : List Book :=
  (List.range k).map (fun j => ⟨genId j, "t", "a", "i", "d", "2020-01-01"⟩)

/-- C3: for every numeric page p ≥ 1, page mode returns the records at
positions (p-1)*4 through (p-1)*4+3 of the store's natural order; with more
than 4 books, page 1 holds exactly 4 records, and page 2 the next up-to-4
records offset by 4. -/
theorem getBooks_page_mode (st : Store) (n : Nat) (hn : 1 ≤ n) :
    getBooks st ⟨some (n : Int), none, none⟩ =
      (⟨200, .books ((st.books.drop ((n - 1) * 4)).take 4)⟩, st) ∧
    (4 < st.books.length →
      ∃ l, getBooks st ⟨some (1 : Int), none, none⟩ =
          (⟨200, .books l⟩, st) ∧ l.length = 4) ∧
    getBooks st ⟨some (2 : Int), none, none⟩ =
      (⟨200, .books ((st.books.drop 4).take 4)⟩, st) := by
  have key : ∀ m : Nat, 1 ≤ m →
      getBooks st ⟨some (m : Int), none, none⟩ =
        (⟨200, .books ((st.books.drop ((m - 1) * 4)).take 4)⟩, st) := by
    intro m hm
    have h0 : (0 : Int) ≤ ((m : Int) - 1) * 4 := by omega
    have ht : (((m : Int) - 1) * 4).toNat = (m - 1) * 4 := by omega
    simp [getBooks, truthy, pageModeResult, h0, ht]
  refine ⟨key n hn, fun hlen => ?_, by simpa using key 2 (by omega)⟩
  refine ⟨(st.books.drop 0).take 4, by simpa using key 1 (by omega), ?_⟩
  simp [List.length_take]
  omega

theorem getBooks_page_mode_witness :
    (∃ l, getBooks ⟨pmB 5, 5⟩ ⟨some (1 : Int), none, none⟩ =
        (⟨200, .books l⟩, ⟨pmB 5, 5⟩) ∧ l.length = 4) ∧
    getBooks ⟨pmB 5, 5⟩ ⟨some (2 : Int), none, none⟩ =
      (⟨200, .books (((pmB 5).drop 4).take 4)⟩, ⟨pmB 5, 5⟩) :=
  ⟨(getBooks_page_mode ⟨pmB 5, 5⟩ 2 (by decide)).2.1 (by decide),
    (getBooks_page_mode ⟨pmB 5, 5⟩ 2 (by decide)).2.2⟩

/-- C5: id mode returns status 200 with exactly the stored record when the
identifier is well-formed and present, status 400 "Book Not Found" when it
is well-formed but absent, and status 400 when it is malformed. -/
theorem getBooks_id_mode (st : Store) (pg : Option Int) (q : Option String)
    (s : String) (hs : s ≠ "") :
    (∀ b, isValidObjectId s = true →
      st.books.find? (fun x => x.id == s) = some b →
      getBooks st ⟨pg, q, some s⟩ = (⟨200, .book b⟩, st)) ∧
    (isValidObjectId s = true →
      st.books.find? (fun x => x.id == s) = none →
      getBooks st ⟨pg, q, some s⟩ = (⟨400, .msg "Book Not Found"⟩, st)) ∧
    (isValidObjectId s = false →
      (getBooks st ⟨pg, q, some s⟩).1.status = 400) := by
  refine ⟨fun b hv hf => ?_, fun hv hf => ?_, fun hv => ?_⟩
  · simp [getBooks, truthy_some hs, idModeResult, hv, hf]
  · simp [getBooks, truthy_some hs, idModeResult, hv, hf]
  · simp [getBooks, truthy_some hs, idModeResult, hv]

theorem getBooks_id_mode_witness :
    (getBooks ⟨[⟨"aaaaaaaaaaaaaaaaaaaaaaaa", "t", "a", "i", "d", "2020"⟩], 1⟩
        ⟨none, none, some "aaaaaaaaaaaaaaaaaaaaaaaa"⟩ =
      (⟨200, .book ⟨"aaaaaaaaaaaaaaaaaaaaaaaa", "t", "a", "i", "d", "2020"⟩⟩,
        ⟨[⟨"aaaaaaaaaaaaaaaaaaaaaaaa", "t", "a", "i", "d", "2020"⟩], 1⟩)) ∧
    (getBooks ⟨[⟨"aaaaaaaaaaaaaaaaaaaaaaaa", "t", "a", "i", "d", "2020"⟩], 1⟩
        ⟨none, none, some "bbbbbbbbbbbbbbbbbbbbbbbb"⟩ =
      (⟨400, .msg "Book Not Found"⟩,
        ⟨[⟨"aaaaaaaaaaaaaaaaaaaaaaaa", "t", "a", "i", "d", "2020"⟩], 1⟩)) ∧
    (getBooks ⟨[⟨"aaaaaaaaaaaaaaaaaaaaaaaa", "t", "a", "i", "d", "2020"⟩], 1⟩
        ⟨none, none, some "invalid_id!"⟩).1.status = 400 :=
  ⟨(getBooks_id_mode
      ⟨[⟨"aaaaaaaaaaaaaaaaaaaaaaaa", "t", "a", "i", "d", "2020"⟩], 1⟩
      none none "aaaaaaaaaaaaaaaaaaaaaaaa" (by decide)).1
      ⟨"aaaaaaaaaaaaaaaaaaaaaaaa", "t", "a", "i", "d", "2020"⟩
      (by decide) (by decide),
    (getBooks_id_mode
      ⟨[⟨"aaaaaaaaaaaaaaaaaaaaaaaa", "t", "a", "i", "d", "2020"⟩], 1⟩
      none none "bbbbbbbbbbbbbbbbbbbbbbbb" (by decide)).2.1
      (by decide) (by decide),
    (getBooks_id_mode
      ⟨[⟨"aaaaaaaaaaaaaaaaaaaaaaaa", "t", "a", "i", "d", "2020"⟩], 1⟩
      none none "invalid_id!" (by decide)).2.2 (by decide)⟩

/-- C6: Update and Delete on a well-formed identifier with no record both
report success — status 200 with a null record payload — and leave the
store unchanged. -/
theorem update_delete_missing_id (st : Store) (s : String) (u : UpdateBody)
    (hv : isValidObjectId s = true)
    (hnone : st.books.find? (fun b => b.id == s) = none) :
    updateBook st s u = (⟨200, .msgBook "Book updated" none⟩, st) ∧
    deleteBook st s = (⟨200, .msgBook "Book deleted" none⟩, st) := by
  constructor
  · simp [updateBook, hv, hnone]
  · have hall := List.find?_eq_none.mp hnone
    have hfil : st.books.filter (fun b => !(b.id == s)) = st.books := by
      rw [List.filter_eq_self]
      intro a ha
      simp [hall a ha]
    simp [deleteBook, hv, hnone, hfil]

theorem update_delete_missing_id_witness :
    updateBook ⟨[⟨"aaaaaaaaaaaaaaaaaaaaaaaa", "t", "a", "i", "d", "2020"⟩], 1⟩
        "bbbbbbbbbbbbbbbbbbbbbbbb" ⟨some "T", none, none, none, none⟩ =
      (⟨200, .msgBook "Book updated" none⟩,
        ⟨[⟨"aaaaaaaaaaaaaaaaaaaaaaaa", "t", "a", "i", "d", "2020"⟩], 1⟩) ∧
    deleteBook ⟨[⟨"aaaaaaaaaaaaaaaaaaaaaaaa", "t", "a", "i", "d", "2020"⟩], 1⟩
        "bbbbbbbbbbbbbbbbbbbbbbbb" =
      (⟨200, .msgBook "Book deleted" none⟩,
        ⟨[⟨"aaaaaaaaaaaaaaaaaaaaaaaa", "t", "a", "i", "d", "2020"⟩], 1⟩) :=
  update_delete_missing_id
    ⟨[⟨"aaaaaaaaaaaaaaaaaaaaaaaa", "t", "a", "i", "d", "2020"⟩], 1⟩
    "bbbbbbbbbbbbbbbbbbbbbbbb" ⟨some "T", none, none, none, none⟩
    (by decide) (by decide)

/-- C8: deleting an existing record (well-formed identifier) reports the
removed record, and a subsequent id-mode fetch of the same identifier gives
the not-found failure (status 400, "Book Not Found"); the record is gone
and exactly the records with a different identifier remain. -/
theorem delete_then_fetch_not_found (st : Store) (s : String) (b : Book)
    (pg : Option Int) (q : Option String) (hs : s ≠ "")
    (hv : isValidObjectId s = true)
    (hfound : st.books.find? (fun x => x.id == s) = some b) :
    (deleteBook st s).1 = ⟨200, .msgBook "Book deleted" (some b)⟩ ∧
    getBooks (deleteBook st s).2 ⟨pg, q, some s⟩ =
      (⟨400, .msg "Book Not Found"⟩, (deleteBook st s).2) ∧
    ∀ x, x ∈ (deleteBook st s).2.books ↔ x ∈ st.books ∧ x.id ≠ s := by
  have hst2 : (deleteBook st s).2.books =
      st.books.filter (fun x => !(x.id == s)) := by
    simp [deleteBook, hv]
  have hnone : (deleteBook st s).2.books.find? (fun x => x.id == s) = none := by
    rw [hst2, List.find?_eq_none]
    intro x hx
    have := (List.mem_filter.mp hx).2
    simp at this
    simp [this]
  refine ⟨by simp [deleteBook, hv, hfound], ?_, fun x => ?_⟩
  · simp [getBooks, truthy_some hs, idModeResult, hv, hnone]
  · rw [hst2, List.mem_filter]
    simp

theorem delete_then_fetch_not_found_witness :
    (deleteBook ⟨[⟨"aaaaaaaaaaaaaaaaaaaaaaaa", "t", "a", "i", "d", "2020"⟩], 1⟩
        "aaaaaaaaaaaaaaaaaaaaaaaa").1 =
      ⟨200, .msgBook "Book deleted"
        (some ⟨"aaaaaaaaaaaaaaaaaaaaaaaa", "t", "a", "i", "d", "2020"⟩)⟩ ∧
    getBooks
        (deleteBook
          ⟨[⟨"aaaaaaaaaaaaaaaaaaaaaaaa", "t", "a", "i", "d", "2020"⟩], 1⟩
          "aaaaaaaaaaaaaaaaaaaaaaaa").2
        ⟨none, none, some "aaaaaaaaaaaaaaaaaaaaaaaa"⟩ =
      (⟨400, .msg "Book Not Found"⟩,
        (deleteBook
          ⟨[⟨"aaaaaaaaaaaaaaaaaaaaaaaa", "t", "a", "i", "d", "2020"⟩], 1⟩
          "aaaaaaaaaaaaaaaaaaaaaaaa").2) ∧
    ∀ x, x ∈ (deleteBook
        ⟨[⟨"aaaaaaaaaaaaaaaaaaaaaaaa", "t", "a", "i", "d", "2020"⟩], 1⟩
        "aaaaaaaaaaaaaaaaaaaaaaaa").2.books ↔
      x ∈ [⟨"aaaaaaaaaaaaaaaaaaaaaaaa", "t", "a", "i", "d", "2020"⟩] ∧
        x.id ≠ "aaaaaaaaaaaaaaaaaaaaaaaa" :=
  delete_then_fetch_not_found
    ⟨[⟨"aaaaaaaaaaaaaaaaaaaaaaaa", "t", "a", "i", "d", "2020"⟩], 1⟩
    "aaaaaaaaaaaaaaaaaaaaaaaa"
    ⟨"aaaaaaaaaaaaaaaaaaaaaaaa", "t", "a", "i", "d", "2020"⟩
    none none (by decide) (by decide) (by decide)

/-- C9: on every request to any of the book operations the response status
is 200 or 201 on success and 400 on every failure path; the handlers are
total, so no exception escapes. -/
theorem all_statuses_200_201_400 (st : Store) (cb : CreateBody)
    (gp : GetParams) (s : String) (u : UpdateBody) :
    ((createBook st cb).1.status = 200 ∨ (createBook st cb).1.status = 201 ∨
      (createBook st cb).1.status = 400) ∧
    ((getBooks st gp).1.status = 200 ∨ (getBooks st gp).1.status = 201 ∨
      (getBooks st gp).1.status = 400) ∧
    ((updateBook st s u).1.status = 200 ∨ (updateBook st s u).1.status = 201 ∨
      (updateBook st s u).1.status = 400) ∧
    ((deleteBook st s).1.status = 200 ∨ (deleteBook st s).1.status = 201 ∨
      (deleteBook st s).1.status = 400) := by
  refine ⟨?_, ?_, ?_, ?_⟩
  · unfold createBook
    split
    · simp
    · split <;> simp
  · unfold getBooks idModeResult queryModeResult pageModeResult
    split
    · split
      · split <;> simp
      · simp
    · split
      · simp
      · split
        · split <;> simp
        · simp
  · unfold updateBook
    split
    · split <;> simp
    · simp
  · unfold deleteBook
    split <;> simp

end BookService
